import Mathlib

/-!
Verification of the `optional` Go package: a generic `Optional[T]` container
(value + presence flag) with combinators and JSON (de)serialization.

The embedding follows `src/optional.go`.  The Go struct
`Optional[T] { value T; present bool }` becomes a Lean structure; the zero
value of `T` (used by `None`) is modelled by an `Inhabited` instance.
Panicking accessors (`Get`, `OrElsePanic`) return `Except String T` where
`.error msg` stands for `panic(msg)`.  `fmt.Sprintf("%v", ·)` (used by
`Equals` and `String`) is an abstract parameter `fmtv : T → String`, and the
`encoding/json` codec for the element type is a pair of abstract parameters
`marshalT : T → String` / `unmarshalT : String → Except String T`.
`UnmarshalJSON` mutates its receiver and returns an error; we model it as a
function from the receiver's prior state and the input bytes to the pair
(new receiver state, optional error).
-/

/-- Go: `type Optional[T any] struct { value T; present bool }`. -/
structure Optional (T : Type) where
  value : T
  present : Bool
deriving DecidableEq, Repr

/-- Go: `Some` — present instance wrapping `value`. -/
def Some {T : Type} (value : T) : Optional T :=
  { value := value, present := true }

/-- Go: `None` — absent instance; the `value` field holds `T`'s zero value. -/
def None (T : Type) [Inhabited T] : Optional T :=
  { value := default, present := false }

/-- Go: `IsPresent`. -/
def Optional.IsPresent {T : Type} (o : Optional T) : Bool :=
  o.present

/-- Go: `IsEmpty`. -/
def Optional.IsEmpty {T : Type} (o : Optional T) : Bool :=
  !o.present

/-- Go: `Get` — returns the value, panics with a generic message if empty. -/
def Optional.Get {T : Type} (o : Optional T) : Except String T :=
  if !o.present then Except.error "called Get() on empty Optional"
  else Except.ok o.value

/-- Go: `Equals` — presence flags must match; two absent are equal; two
present compare `fmt.Sprintf("%v", ·)` representations. -/
def Optional.Equals {T : Type} (fmtv : T → String) (o other : Optional T) : Bool :=
  if o.present != other.present then false
  else if !o.present then true
  else fmtv o.value == fmtv other.value

/-- Go: `OrElsePanic` — like `Get` but panics with the caller's message. -/
def Optional.OrElsePanic {T : Type} (o : Optional T) (message : String) : Except String T :=
  if !o.present then Except.error message
  else Except.ok o.value

/-- Go: `OrElse`. -/
def Optional.OrElse {T : Type} (o : Optional T) (defaultValue : T) : T :=
  if o.present then o.value else defaultValue

/-- Go: `Zip` — combines two Optionals when both are present. -/
def Zip {T U R : Type} [Inhabited R] (opt1 : Optional T) (opt2 : Optional U)
    (combiner : T → U → R) : Optional R :=
  if opt1.present && opt2.present then Some (combiner opt1.value opt2.value)
  else None R

/-- Go: `FlatMap` — returns `mapper value` directly when present. -/
def FlatMap {T U : Type} [Inhabited U] (opt : Optional T)
    (mapper : T → Optional U) : Optional U :=
  if opt.present then mapper opt.value else None U

/-- Go: `Filter` — returns the receiver if present and the predicate holds,
otherwise `None`. -/
def Optional.Filter {T : Type} [Inhabited T] (o : Optional T)
    (predicate : T → Bool) : Optional T :=
  if o.present && predicate o.value then o else None T

/-- Go: `MarshalJSON` — marshals the contained value when present, else the
bytes `null`.  `marshalT` stands for `json.Marshal` at type `T`. -/
def Optional.MarshalJSON {T : Type} (marshalT : T → String) (o : Optional T) : String :=
  if o.present then marshalT o.value else "null"

/-- Go: `UnmarshalJSON` — on `null` clears the presence flag and succeeds;
otherwise unmarshals a `T`: on parser error returns that error with the
receiver untouched, on success stores the value and sets the flag.
Result: (new receiver state, error if any). -/
def Optional.UnmarshalJSON {T : Type} (unmarshalT : String → Except String T)
    (o : Optional T) (data : String) : Optional T × Option String :=
  if data = "null" then ({ o with present := false }, none)
  else
    match unmarshalT data with
    | Except.error e => (o, some e)
    | Except.ok v => ({ value := v, present := true }, none)

/-- Go: `String` — `"Some(<%v of value>)"` when present, `"None"` when absent. -/
def Optional.String {T : Type} (fmtv : T → String) (o : Optional T) : String :=
  if o.present then "Some(" ++ fmtv o.value ++ ")" else "None"

/-- A concrete element codec for witnesses: `encoding/json` at type `int`
(natural-number inputs), used to instantiate the abstract codec parameters. -/
def natMarshal (n : Nat) : String :=
  toString n

/-- Decimal digit run for the witness decoder. -/
def parseDigits : List Char → Nat → Option Nat
  | [], acc => some acc
  | c :: cs, acc =>
    if c.isDigit then parseDigits cs (acc * 10 + (c.toNat - 48)) else none

/-- Concrete element decoder for witnesses: accepts a run of decimal digits,
any other input is a decode error carrying a diagnostic message. -/
def natUnmarshal (s : String) : Except String Nat :=
  match parseDigits s.data 0 with
  | some n => Except.ok n
  | none => Except.error ("invalid character looking for beginning of value: " ++ s)

/-- C4: for every present Optional, `Get` returns the contained value; for
every absent Optional, `Get` panics with the generic empty-Optional message;
`OrElsePanic` behaves identically except that on an absent receiver it panics
with exactly the caller-supplied message. -/
theorem get_orElsePanic_spec {T : Type} (o : Optional T) (message : String) :
    (o.present = true →
      o.Get = Except.ok o.value ∧ o.OrElsePanic message = Except.ok o.value)
    ∧ (o.present = false →
      o.Get = Except.error "called Get() on empty Optional"
      ∧ o.OrElsePanic message = Except.error message) := by
  constructor
  · intro h
    simp [Optional.Get, Optional.OrElsePanic, h]
  · intro h
    simp [Optional.Get, Optional.OrElsePanic, h]

/-- Witness for C4 at `Some 3` and `None Nat`. -/
theorem get_orElsePanic_spec_witness :
    ((Some 3).Get = Except.ok 3 ∧ (Some 3).OrElsePanic "empty id" = Except.ok 3)
    ∧ ((None Nat).Get = Except.error "called Get() on empty Optional"
      ∧ (None Nat).OrElsePanic "empty id" = Except.error "empty id") :=
  ⟨(get_orElsePanic_spec (Some 3) "empty id").1 rfl,
   (get_orElsePanic_spec (None Nat) "empty id").2 rfl⟩

/-- C5: `Zip a b f` is present iff both inputs are present; when both are
present it equals `Some (f a.value b.value)`; when either is absent it is
`None R` and the result does not depend on the combiner. -/
theorem zip_spec {T U R : Type} [Inhabited R] (a : Optional T) (b : Optional U)
    (f g : T → U → R) :
    ((Zip a b f).IsPresent = (a.IsPresent && b.IsPresent))
    ∧ (a.present = true → b.present = true → Zip a b f = Some (f a.value b.value))
    ∧ ((a.present = false ∨ b.present = false) →
      Zip a b f = None R ∧ Zip a b f = Zip a b g) := by
  refine ⟨?_, ?_, ?_⟩
  · cases ha : a.present <;> cases hb : b.present <;>
      simp [Zip, Optional.IsPresent, Some, None, ha, hb]
  · intro ha hb
    simp [Zip, ha, hb]
  · intro h
    rcases h with h | h <;> simp [Zip, h]

/-- Witness for C5 at `Some 42`/`Some "hello"` (both present) and
`Some 42`/`None String` (one absent). -/
theorem zip_spec_witness :
    ((Zip (Some 42) (Some "hello") (fun a b => toString a ++ "-" ++ b)).IsPresent
      = ((Some 42).IsPresent && (Some "hello").IsPresent))
    ∧ (Zip (Some 42) (Some "hello") (fun a b => toString a ++ "-" ++ b)
      = Some ((fun a b => toString a ++ "-" ++ b) 42 "hello"))
    ∧ (Zip (Some 42) (None String) (fun a b => toString a ++ "-" ++ b) = None String
      ∧ Zip (Some 42) (None String) (fun a b => toString a ++ "-" ++ b)
        = Zip (Some 42) (None String) (fun _ _ => "other")) :=
  ⟨(zip_spec (Some 42) (Some "hello")
      (fun a b => toString a ++ "-" ++ b) (fun a b => toString a ++ "-" ++ b)).1,
   (zip_spec (Some 42) (Some "hello")
      (fun a b => toString a ++ "-" ++ b) (fun a b => toString a ++ "-" ++ b)).2.1 rfl rfl,
   (zip_spec (Some 42) (None String)
      (fun a b => toString a ++ "-" ++ b) (fun _ _ => "other")).2.2 (Or.inr rfl)⟩

/-- C6: `FlatMap (Some v) f` equals `f v` exactly (no re-wrapping); on an
absent input `FlatMap` returns `None U` and the result does not depend on the
mapper. -/
theorem flatMap_spec {T U : Type} [Inhabited U] (v : T) (f : T → Optional U)
    (o : Optional T) (g k : T → Optional U) :
    FlatMap (Some v) f = f v
    ∧ (o.present = false → FlatMap o g = None U ∧ FlatMap o g = FlatMap o k) := by
  constructor
  · simp [FlatMap, Some]
  · intro hp
    simp [FlatMap, hp]

/-- Witness for C6 at `v = 1` and the absent input `None Nat`. -/
theorem flatMap_spec_witness :
    FlatMap (Some 1) (fun x => Some (x + 1)) = (fun x => Some (x + 1)) 1
    ∧ (FlatMap (None Nat) (fun x : Nat => Some x) = None Nat
      ∧ FlatMap (None Nat) (fun x : Nat => Some x)
        = FlatMap (None Nat) (fun _ : Nat => None Nat)) :=
  ⟨(flatMap_spec 1 (fun x => Some (x + 1)) (None Nat)
      (fun x : Nat => Some x) (fun _ : Nat => None Nat)).1,
   (flatMap_spec 1 (fun x => Some (x + 1)) (None Nat)
      (fun x : Nat => Some x) (fun _ : Nat => None Nat)).2 rfl⟩

/-- C7: `Filter` returns the receiver unchanged when present with the
predicate true, and `None T` otherwise; on an absent receiver the result does
not depend on the predicate. -/
theorem filter_spec {T : Type} [Inhabited T] (o : Optional T) (p q : T → Bool) :
    (o.present = true → p o.value = true → o.Filter p = o)
    ∧ (o.present = true → p o.value = false → o.Filter p = None T)
    ∧ (o.present = false → o.Filter p = None T ∧ o.Filter p = o.Filter q) := by
  refine ⟨?_, ?_, ?_⟩
  · intro h hp
    simp [Optional.Filter, h, hp]
  · intro h hp
    simp [Optional.Filter, h, hp]
  · intro h
    simp [Optional.Filter, h]

/-- Witness for C7 at `Some 7` (predicate true and false) and `None Nat`. -/
theorem filter_spec_witness :
    ((Some 7).Filter (fun x => x == 7) = Some 7)
    ∧ ((Some 7).Filter (fun _ : Nat => false) = None Nat)
    ∧ ((None Nat).Filter (fun x => x == 7) = None Nat
      ∧ (None Nat).Filter (fun x => x == 7) = (None Nat).Filter (fun _ : Nat => true)) :=
  ⟨(filter_spec (Some 7) (fun x => x == 7) (fun x => x == 7)).1 rfl (by decide),
   (filter_spec (Some 7) (fun _ : Nat => false) (fun _ : Nat => false)).2.1 rfl rfl,
   (filter_spec (None Nat) (fun x => x == 7) (fun _ : Nat => true)).2.2 rfl⟩

/-- C8: two absent Optionals are equal; mixed presence is unequal; two
present Optionals are equal iff their values agree under the textual
representation `fmtv` (the element equality notion the code implements). -/
theorem equals_spec {T : Type} (fmtv : T → String) (a b : Optional T) :
    (a.present = false → b.present = false → Optional.Equals fmtv a b = true)
    ∧ (a.present ≠ b.present → Optional.Equals fmtv a b = false)
    ∧ (a.present = true → b.present = true →
      (Optional.Equals fmtv a b = true ↔ fmtv a.value = fmtv b.value)) := by
  refine ⟨?_, ?_, ?_⟩
  · intro ha hb
    simp [Optional.Equals, ha, hb]
  · intro h
    have hbne : (a.present != b.present) = true := by
      cases ha : a.present <;> cases hb : b.present <;> simp_all
    simp [Optional.Equals, hbne]
  · intro ha hb
    simp [Optional.Equals, ha, hb]

/-- Witness for C8 at `None/None`, `Some 1/None` and `Some 2/Some 2`. -/
theorem equals_spec_witness :
    Optional.Equals (fun n : Nat => toString n) (None Nat) (None Nat) = true
    ∧ Optional.Equals (fun n : Nat => toString n) (Some 1) (None Nat) = false
    ∧ (Optional.Equals (fun n : Nat => toString n) (Some 2) (Some 2) = true ↔
      toString (2 : Nat) = toString (2 : Nat)) :=
  ⟨(equals_spec (fun n : Nat => toString n) (None Nat) (None Nat)).1 rfl rfl,
   (equals_spec (fun n : Nat => toString n) (Some 1) (None Nat)).2.1 (by decide),
   (equals_spec (fun n : Nat => toString n) (Some 2) (Some 2)).2.2 rfl rfl⟩

/-- C2 counterexample: deserializing the null literal into the present
`Some 5` leaves the value field still holding 5 — the prior value is not
erased, only the presence flag is cleared — so the claim's conjunct that the
value field no longer holds the previously stored value fails. -/
theorem unmarshal_null_cex :
    ¬ ((Optional.UnmarshalJSON natUnmarshal (Some 5) "null").1.present = false
      ∧ (Optional.UnmarshalJSON natUnmarshal (Some 5) "null").1.value ≠ 5) := by
  decide

/-- C2 amended: deserializing the null literal into any target yields an
absent instance (`IsEmpty` true, no error), but the value field is left
untouched — it still holds whatever it held before (merely never observed
by public operations). -/
theorem unmarshal_null_absent {T : Type} (unmarshalT : String → Except String T)
    (o : Optional T) :
    (Optional.UnmarshalJSON unmarshalT o "null").1.IsEmpty = true
    ∧ (Optional.UnmarshalJSON unmarshalT o "null").1.value = o.value
    ∧ (Optional.UnmarshalJSON unmarshalT o "null").2 = none := by
  simp [Optional.UnmarshalJSON, Optional.IsEmpty]

/-- C3: on input that is not the null literal and on which the element
decoder fails, `UnmarshalJSON` returns exactly the decoder's error, and the
receiver's presence flag is unchanged (no present instance is produced). -/
theorem unmarshal_error_propagates {T : Type}
    (unmarshalT : String → Except String T) (o : Optional T) (data e : String)
    (hnull : data ≠ "null") (herr : unmarshalT data = Except.error e) :
    (Optional.UnmarshalJSON unmarshalT o data).2 = some e
    ∧ (Optional.UnmarshalJSON unmarshalT o data).1.IsPresent = o.IsPresent := by
  simp [Optional.UnmarshalJSON, hnull, herr, Optional.IsPresent]

/-- Witness for C3: decoding `"invalid"` into `None Nat` surfaces the
decoder's own error message. -/
theorem unmarshal_error_propagates_witness :
    (Optional.UnmarshalJSON natUnmarshal (None Nat) "invalid").2
      = some ("invalid character looking for beginning of value: " ++ "invalid")
    ∧ (Optional.UnmarshalJSON natUnmarshal (None Nat) "invalid").1.IsPresent
      = (None Nat).IsPresent :=
  unmarshal_error_propagates natUnmarshal (None Nat) "invalid"
    ("invalid character looking for beginning of value: " ++ "invalid")
    (by decide) rfl

/-- C9: on a failing decode (input neither null nor well-formed), the
receiver is returned entirely unchanged — presence flag and stored value both
exactly as before the call — together with the decoder's error. -/
theorem unmarshal_error_atomic {T : Type}
    (unmarshalT : String → Except String T) (o : Optional T) (data e : String)
    (hnull : data ≠ "null") (herr : unmarshalT data = Except.error e) :
    Optional.UnmarshalJSON unmarshalT o data = (o, some e) := by
  simp [Optional.UnmarshalJSON, hnull, herr]

/-- Witness for C9: decoding `"x1"` into the present `Some 9` leaves it as
`Some 9` with the decode error reported. -/
theorem unmarshal_error_atomic_witness :
    Optional.UnmarshalJSON natUnmarshal (Some 9) "x1"
      = (Some 9, some ("invalid character looking for beginning of value: " ++ "x1")) :=
  unmarshal_error_atomic natUnmarshal (Some 9) "x1"
    ("invalid character looking for beginning of value: " ++ "x1")
    (by decide) rfl

/-- C1: for every element value `v` on which the element codec round-trips
and whose encoding is not the null literal, deserializing the serialization
of `Some v` (into any target) yields an Optional that `Equals` `Some v`; and
deserializing the serialization of `None T` yields an Optional whose
`IsEmpty` is true. -/
theorem serialize_roundTrip {T : Type} [Inhabited T]
    (marshalT : T → String) (unmarshalT : String → Except String T)
    (fmtv : T → String) (v : T) (target : Optional T)
    (hrt : unmarshalT (marshalT v) = Except.ok v) (hnn : marshalT v ≠ "null") :
    Optional.Equals fmtv
      (Optional.UnmarshalJSON unmarshalT target
        (Optional.MarshalJSON marshalT (Some v))).1 (Some v) = true
    ∧ (Optional.UnmarshalJSON unmarshalT target
        (Optional.MarshalJSON marshalT (None T))).1.IsEmpty = true := by
  constructor
  · simp [Optional.MarshalJSON, Optional.UnmarshalJSON, Some, hnn, hrt,
      Optional.Equals]
  · simp [Optional.MarshalJSON, Optional.UnmarshalJSON, None, Optional.IsEmpty]

/-- Witness for C1 with the concrete decimal codec at `v = 42`. -/
theorem serialize_roundTrip_witness :
    natUnmarshal (natMarshal 42) = Except.ok 42
    ∧ natMarshal 42 ≠ "null"
    ∧ Optional.Equals (fun n : Nat => toString n)
        (Optional.UnmarshalJSON natUnmarshal (None Nat)
          (Optional.MarshalJSON natMarshal (Some 42))).1 (Some 42) = true
    ∧ (Optional.UnmarshalJSON natUnmarshal (None Nat)
        (Optional.MarshalJSON natMarshal (None Nat))).1.IsEmpty = true :=
  ⟨rfl, by decide,
   (serialize_roundTrip natMarshal natUnmarshal (fun n : Nat => toString n) 42
      (None Nat) rfl (by decide)).1,
   (serialize_roundTrip natMarshal natUnmarshal (fun n : Nat => toString n) 42
      (None Nat) rfl (by decide)).2⟩

/-- A rendered present Optional is never the absent rendering. -/
theorem someRender_ne_noneRender (s : String) : ("Some(" ++ s ++ ")") ≠ "None" := by
  intro h
  have hd := congrArg String.data h
  simp only [String.data_append] at hd
  have hlen := congrArg List.length hd
  simp [List.length_append] at hlen

/-- The rendering of a present Optional determines the rendered value text. -/
theorem someRender_inj (x y : String)
    (h : "Some(" ++ x ++ ")" = "Some(" ++ y ++ ")") : x = y := by
  have hd := congrArg String.data h
  simp only [String.data_append, List.append_assoc] at hd
  exact String.ext (List.append_cancel_right (List.append_cancel_left hd))

/-- `Equals` agrees exactly with equality of `String` renderings. -/
theorem equals_eq_true_iff_render {T : Type} (fmtv : T → String) (a b : Optional T) :
    Optional.Equals fmtv a b = true ↔
      Optional.String fmtv a = Optional.String fmtv b := by
  cases ha : a.present <;> cases hb : b.present
  · simp [Optional.Equals, Optional.String, ha, hb]
  · simp [Optional.Equals, Optional.String, ha, hb]
    exact fun hcontr => someRender_ne_noneRender (fmtv b.value) hcontr.symm
  · simp [Optional.Equals, Optional.String, ha, hb]
    exact someRender_ne_noneRender (fmtv a.value)
  · simp [Optional.Equals, Optional.String, ha, hb]
    constructor
    · intro hxy
      rw [hxy]
    · exact someRender_inj _ _

/-- C10: `Equals` holds exactly when the two `String` renderings coincide;
consequently it is reflexive, symmetric and transitive, and any two present
values with identical printed form compare equal. -/
theorem equals_iff_render {T : Type} (fmtv : T → String) (a b c : Optional T)
    (x y : T) :
    (Optional.Equals fmtv a b = true ↔
      Optional.String fmtv a = Optional.String fmtv b)
    ∧ Optional.Equals fmtv a a = true
    ∧ Optional.Equals fmtv a b = Optional.Equals fmtv b a
    ∧ (Optional.Equals fmtv a b = true → Optional.Equals fmtv b c = true →
      Optional.Equals fmtv a c = true)
    ∧ (fmtv x = fmtv y → Optional.Equals fmtv (Some x) (Some y) = true) := by
  refine ⟨equals_eq_true_iff_render fmtv a b, ?_, ?_, ?_, ?_⟩
  · exact (equals_eq_true_iff_render fmtv a a).mpr rfl
  · have h1 := equals_eq_true_iff_render fmtv a b
    have h2 := equals_eq_true_iff_render fmtv b a
    cases hab : Optional.Equals fmtv a b <;>
      cases hba : Optional.Equals fmtv b a <;> simp_all
  · intro h1 h2
    exact (equals_eq_true_iff_render fmtv a c).mpr
      (((equals_eq_true_iff_render fmtv a b).mp h1).trans
        ((equals_eq_true_iff_render fmtv b c).mp h2))
  · intro hxy
    refine (equals_eq_true_iff_render fmtv (Some x) (Some y)).mpr ?_
    simp [Optional.String, Some, hxy]

/-- Witness for C10 at `Some 3` against itself with `fmtv = toString`. -/
theorem equals_iff_render_witness :
    (Optional.Equals (fun n : Nat => toString n) (Some 3) (Some 3) = true ↔
      Optional.String (fun n : Nat => toString n) (Some 3)
        = Optional.String (fun n : Nat => toString n) (Some 3))
    ∧ Optional.Equals (fun n : Nat => toString n) (Some 3) (Some 3) = true
    ∧ Optional.Equals (fun n : Nat => toString n) (Some 3) (Some 3)
        = Optional.Equals (fun n : Nat => toString n) (Some 3) (Some 3)
    ∧ Optional.Equals (fun n : Nat => toString n) (Some 3) (Some 3) = true
    ∧ Optional.Equals (fun n : Nat => toString n) (Some 3) (Some 3) = true :=
  let t := equals_iff_render (fun n : Nat => toString n)
    (Some 3) (Some 3) (Some 3) 3 3
  ⟨t.1, t.2.1, t.2.2.1, t.2.2.2.1 (by decide) (by decide), t.2.2.2.2 rfl⟩
